import Mathlib

/-!
Verification of the contextual content-recommendation core: the
session-tracking risk engine (`backend/models/anti_addiction.py`, first
class definition, the persisted-aggregate variant the spec canonicalizes),
the mood-genre affinity table (`backend/models/mood_content_affinity.py`,
first class definition) and the ensemble ranker
(`backend/models/context_ensemble.py`).

The SQLite tables are modelled as association lists keyed by the
corresponding PRIMARY KEY / UNIQUE columns; Python floats are modelled as
rationals; `datetime.utcnow()` is modelled by passing the relevant
components (whole-second timestamp, ISO date string, hour) as explicit
parameters; Python `round(x, 2)` is modelled as round-half-up at two
decimals.
-/

namespace ContentRec

/-- Model of Python `round(x, 2)`: round to two decimal places. -/
def round2 (q : ℚ) : ℚ := ((round (100 * q) : ℤ) : ℚ) / 100

/-- Model of Python `int(...)` on a float: truncation toward zero. -/
def pyInt (q : ℚ) : ℤ := if 0 ≤ q then ⌊q⌋ else -⌊-q⌋

/-- Association-list lookup on the first matching key (models a SELECT by
a PRIMARY KEY / UNIQUE column). -/
def lookupA {κ β : Type} [DecidableEq κ] : List (κ × β) → κ → Option β
  | [], _ => none
  | p :: t, k => if p.1 = k then some p.2 else lookupA t k

/-- Association-list update of every row matching a key (models an SQL
UPDATE ... WHERE key = ?). -/
def modA {κ β : Type} [DecidableEq κ] (l : List (κ × β)) (k : κ) (f : β → β) :
    List (κ × β) :=
  l.map fun p => if p.1 = k then (p.1, f p.2) else p

/-! ## Risk engine data model (`watch_sessions` and `addiction_metrics`) -/

/-- A row of the `watch_sessions` table (first `AntiAddictionModule`
class). `start_time` is represented by its ISO date part and its hour,
which are the only components the module reads back. -/
structure WatchSessionRow where
  user_id : ℤ
  content_id : ℤ
  mood_at_start : String
  time_period : String
  start_date : String
  start_hour : ℕ
  duration_minutes : ℤ
  completed : Bool
  user_satisfied : Bool
deriving DecidableEq, Repr

/-- A row of the `addiction_metrics` table, keyed by UNIQUE(user_id, date). -/
structure MetricRow where
  total_watch_minutes : ℤ
  session_count : ℤ
  max_session_duration : ℤ
  break_count : ℤ
  addiction_risk_score : ℚ
  wellness_score : ℚ
deriving DecidableEq, Repr

/-- The persistent store owned by the risk engine. -/
structure DB where
  sessions : List (String × WatchSessionRow)
  metrics : List ((ℤ × String) × MetricRow)
deriving DecidableEq, Repr

/-- SELECT ... FROM watch_sessions WHERE session_id = ? AND user_id = ?
(the lookup used by `end_watch_session`). -/
def lookupSess : List (String × WatchSessionRow) → String → ℤ → Option WatchSessionRow
  | [], _, _ => none
  | p :: t, sid, uid =>
    if p.1 = sid ∧ p.2.user_id = uid then some p.2 else lookupSess t sid uid

/-! ## Risk scoring (`get_addiction_risk_score` and helpers) -/

def DAILY_WATCH_GOAL : ℤ := 120
def BREAK_INTERVAL : ℤ := 30

/-- Binge factor step function on `max_session_duration`
(`_compute_binge_factor`). -/
def compute_binge_factor (m : ℤ) : ℚ :=
  if m < 60 then 0 else if m < 180 then 50 else if m < 300 then 80 else 100

/-- Unhealthy-hours factor (`_unhealthy_hours_factor`): 50 if any session
of the user on the date started at hour ≥ 23 or < 6, else 0. -/
def unhealthy_any (db : DB) (uid : ℤ) (d : String) : Bool :=
  db.sessions.any fun p =>
    decide (p.2.user_id = uid) && decide (p.2.start_date = d) &&
      (decide (23 ≤ p.2.start_hour) || decide (p.2.start_hour < 6))

/-- `get_addiction_risk_score` of the first `AntiAddictionModule` class:
four weighted factors over the stored daily aggregates, clamped to
[0,100] and rounded to two decimals. -/
def get_addiction_risk_score (db : DB) (uid : ℤ) (d : String) : ℚ :=
  let tcm : ℤ × ℤ × ℤ :=
    match lookupA db.metrics (uid, d) with
    | none => (0, 0, 0)
    | some r => (r.total_watch_minutes, r.session_count, r.max_session_duration)
  let f1 : ℚ :=
    if 0 < DAILY_WATCH_GOAL then
      min 100 ((tcm.1 : ℚ) / (DAILY_WATCH_GOAL : ℚ) * 100)
    else 0
  let f2 : ℚ := min 100 ((tcm.2.1 : ℚ) / 5 * 100)
  let f3 : ℚ := compute_binge_factor tcm.2.2
  let f4 : ℚ := if unhealthy_any db uid d then 50 else 0
  round2 (max 0 (min 100 (f1 * 0.4 + f2 * 0.3 + f3 * 0.2 + f4 * 0.1)))

/-- `get_wellness_score`: clamped, rounded complement of the risk score. -/
def get_wellness_score (db : DB) (uid : ℤ) (d : String) : ℚ :=
  round2 (max 0 (min 100 (100 - get_addiction_risk_score db uid d)))

/-- Binge step function exactly as the claim words it. -/
def bingeClaim (m : ℤ) : ℚ :=
  if m < 60 then 0 else if m < 180 then 50 else if m < 300 then 80 else 100

/-- Risk formula exactly as the claim words it:
round(clamp(0.4·f1 + 0.3·f2 + 0.2·binge + 0.1·late, 0, 100), 2). -/
def riskClaim (t c m : ℤ) (late : Bool) : ℚ :=
  round2 (max 0 (min 100
    (0.4 * min 100 ((t : ℚ) / 120 * 100) + 0.3 * min 100 ((c : ℚ) / 5 * 100) +
      0.2 * bingeClaim m + 0.1 * (if late then 50 else 0))))

/-! ## Session lifecycle operations -/

/-- Session id built by `start_watch_session`:
"sess_{user_id}_{content_id}_{int(utcnow().timestamp())}". -/
def mkSessionId (uid cid : ℤ) (ts : ℕ) : String :=
  "sess_" ++ toString uid ++ "_" ++ toString cid ++ "_" ++ toString ts

/-- `start_watch_session` (first class): INSERT a fresh row with
`duration_minutes = 0`; a PRIMARY KEY conflict raises an sqlite error,
modelled as an error result with the state unchanged. The current UTC
time is passed as (whole-second timestamp, date string, hour). -/
def start_watch_session (db : DB) (uid cid : ℤ) (mood period : String)
    (ts : ℕ) (date : String) (hour : ℕ) : DB × Except String String :=
  let sid := mkSessionId uid cid ts
  match lookupA db.sessions sid with
  | some _ => (db, .error "UNIQUE constraint failed: watch_sessions.session_id")
  | none =>
    ({ db with
        sessions := (sid, ⟨uid, cid, mood, period, date, hour, 0, false, false⟩)
          :: db.sessions },
      .ok sid)

/-- Result of `update_watch_progress`. -/
structure UpdateResult where
  should_break : Bool
  addiction_score : ℚ
deriving DecidableEq, Repr

/-- `update_watch_progress` (first class): overwrite `duration_minutes`
with the reported value, then recompute today's risk score; break is
recommended iff the reported duration is a positive multiple of 30. -/
def update_watch_progress (db : DB) (sid : String) (d : ℤ) (today : String) :
    DB × Except String UpdateResult :=
  match lookupA db.sessions sid with
  | none => (db, .error "session_not_found")
  | some row =>
    let db2 : DB :=
      { db with
          sessions := modA db.sessions sid fun s => { s with duration_minutes := d } }
    let score := get_addiction_risk_score db2 row.user_id today
    (db2, .ok ⟨decide (0 < d) && decide (d % BREAK_INTERVAL = 0), score⟩)

/-- Result of `end_watch_session`. -/
structure EndResult where
  duration : ℤ
  addiction_score : ℚ
  wellness_score : ℚ
deriving DecidableEq, Repr

/-- `end_watch_session` (first class): look up the session by
(session_id, user_id); on a miss return the NotFound error with the state
unchanged. Otherwise mark the session completed, fold its stored duration
into the (user, today) `addiction_metrics` row (INSERT a fresh row or
read-modify-write the existing one), then recompute and store today's
risk and wellness scores. -/
def end_watch_session (db : DB) (sid : String) (uid : ℤ) (satisfied : Bool)
    (today : String) : DB × Except String EndResult :=
  match lookupSess db.sessions sid uid with
  | none => (db, .error "session_not_found")
  | some row =>
    let d := row.duration_minutes
    let sess2 := modA db.sessions sid fun s =>
      { s with completed := true, user_satisfied := satisfied }
    let mets2 :=
      match lookupA db.metrics (uid, today) with
      | none => ((uid, today), (⟨d, 1, d, 0, 0, 100⟩ : MetricRow)) :: db.metrics
      | some m =>
        modA db.metrics (uid, today) fun _ =>
          { m with
              total_watch_minutes := m.total_watch_minutes + d
              session_count := m.session_count + 1
              max_session_duration := max m.max_session_duration d }
    let db2 : DB := ⟨sess2, mets2⟩
    let score := get_addiction_risk_score db2 uid today
    let wellness := 100 - score
    let db3 : DB :=
      { db2 with
          metrics := modA mets2 (uid, today) fun mr =>
            { mr with addiction_risk_score := score, wellness_score := wellness } }
    (db3, .ok ⟨d, score, wellness⟩)

/-- Throttle percent step function of `should_throttle_recommendations`
(first class): < 60 → 100, ≤ 75 → 50, else 20. -/
def throttle_percent (score : ℚ) : ℕ :=
  if score < 60 then 100 else if score ≤ 75 then 50 else 20

/-- `should_throttle_recommendations` (first class): percent plus the
`throttled` flag (percent < 100), from today's risk score. -/
def should_throttle_recommendations (db : DB) (uid : ℤ) (today : String) :
    ℕ × Bool :=
  let score := get_addiction_risk_score db uid today
  (throttle_percent score, decide (throttle_percent score < 100))

/-! ## Mood-content affinity table (first `MoodContentAffinity` class) -/

/-- The seeded mood → genre → affinity matrix (`DEFAULT_MATRIX`). -/
def DEFAULT_MATRIX : List (String × List (String × ℚ)) :=
  [("happy",
    [("comedy", 0.95), ("musical", 0.92), ("adventure", 0.85),
     ("animation", 0.88), ("action", 0.72), ("romantic", 0.80),
     ("horror", 0.15)]),
   ("sad",
    [("drama", 0.95), ("documentary", 0.85), ("thriller", 0.75),
     ("crime", 0.70), ("horror", 0.65), ("romance", 0.65),
     ("animation", 0.30)]),
   ("neutral",
    [("action", 0.85), ("adventure", 0.75), ("sci-fi", 0.80),
     ("thriller", 0.75), ("drama", 0.65), ("documentary", 0.70),
     ("horror", 0.50)])]

/-- Model of Python `str.lower()` on the ASCII strings this module uses:
lowercase every character. -/
def strLower (s : String) : String := ⟨s.data.map Char.toLower⟩

/-- `get_affinity_score`: lowercase both inputs, return the stored value
when the mood row and the genre entry exist, else the 0.5 neutral
default. The in-memory matrix is a parameter (after first boot it equals
`DEFAULT_MATRIX`). -/
def get_affinity_score (matrix : List (String × List (String × ℚ)))
    (mood genre : String) : ℚ :=
  match lookupA matrix (strLower mood) with
  | none => 0.5
  | some gs =>
    match lookupA gs (strLower genre) with
    | none => 0.5
    | some s => s

/-! ## Ensemble ranker (`context_ensemble.py`, `ContextAwareEnsemble`) -/

/-- Item metadata consumed by the ranker (`_get_item_metadata` shape). -/
structure ItemMeta where
  title : String
  genres : List String
  duration : ℤ
deriving DecidableEq, Repr

/-- Ensemble weights from `ContextAwareEnsemble.__init__`. -/
def weights_collaborative : ℚ := 0.40
def weights_mood : ℚ := 0.20
def weights_time : ℚ := 0.10
def weights_content_bias : ℚ := 0.30

/-- Per-candidate final score of `get_recommendations`: the predicted
rating is normalized to [0,1] (`pred/5`), the time score comes from the
first genre (0.5 if none) and is halved when the item duration exceeds
the current period's maximum, and the content term is the constant 0.3
baseline. The mood scorer and the per-genre time scorer are injected
dependencies. -/
def ensemble_item_score (moodScore : ItemMeta → String → ℚ)
    (timeScoreOf : String → ℚ) (period_max_duration : ℤ) (mood : String)
    (pred_rating : ℚ) (meta : ItemMeta) : ℚ :=
  let cf_score := pred_rating / 5
  let mood_score := moodScore meta mood
  let time_score0 : ℚ :=
    match meta.genres with
    | [] => 0.5
    | g :: _ => timeScoreOf g
  let time_score :=
    if meta.duration ≤ period_max_duration then time_score0 else time_score0 * 0.5
  cf_score * weights_collaborative + mood_score * weights_mood +
    time_score * weights_time + 0.3

/-- Effective result count: `max(1, int(n * (1 - throttle_percentage)))`
when the throttle flag is set, else `n` unchanged. -/
def effective_n (n : ℕ) (st : Bool) (throttle_percentage : ℚ) : ℕ :=
  if st then max 1 (pyInt ((n : ℚ) * (1 - throttle_percentage))).toNat else n

/-- Descending order on scored items, non-strict so that the insertion
sort below models Python's stable `sort(reverse=True)`. -/
def scoreGE (a b : ℕ × ℚ) : Prop := b.2 ≤ a.2

instance : DecidableRel scoreGE := fun a b => inferInstanceAs (Decidable (b.2 ≤ a.2))

instance : IsTotal (ℕ × ℚ) scoreGE := ⟨fun a b => le_total b.2 a.2⟩

instance : IsTrans (ℕ × ℚ) scoreGE := ⟨fun _ _ _ h1 h2 => le_trans h2 h1⟩

/-- Stable descending sort by final score
(`ranked_items.sort(key=..., reverse=True)`). -/
def sortDesc (l : List (ℕ × ℚ)) : List (ℕ × ℚ) := l.insertionSort scoreGE

/-- Core of `ContextAwareEnsemble.get_recommendations`: apply the
throttle decision to the requested count, score every candidate
`(item_id, predicted_rating)`, sort descending by final score and
truncate. -/
def get_recommendations (st : Bool) (throttle_percentage : ℚ)
    (moodScore : ItemMeta → String → ℚ) (timeScoreOf : String → ℚ)
    (period_max_duration : ℤ) (mood : String) (metaOf : ℕ → ItemMeta)
    (candidates : List (ℕ × ℚ)) (n : ℕ) : List (ℕ × ℚ) :=
  let n2 := effective_n n st throttle_percentage
  let scored := candidates.map fun c =>
    (c.1, ensemble_item_score moodScore timeScoreOf period_max_duration mood c.2
      (metaOf c.1))
  (sortDesc scored).take n2

/-- Final-score formula exactly as the claim words it:
0.4·cf + 0.3·cb + 0.2·moodAffinity + 0.1·timeScore. -/
def final_score_claim (cf cb moodAffinity timeScore : ℚ) : ℚ :=
  0.4 * cf + 0.3 * cb + 0.2 * moodAffinity + 0.1 * timeScore

/-! ## Views and concrete scenario stores -/

/-- Projection of a metric row onto its three folded aggregates
(total_watch_minutes, session_count, max_session_duration). -/
def metricView : Option MetricRow → Option (ℤ × ℤ × ℤ) :=
  Option.map fun m =>
    (m.total_watch_minutes, m.session_count, m.max_session_duration)

/-- Expected aggregates after one fold of a duration into an optional
pre-existing metric row. -/
def foldTCM : Option MetricRow → ℤ → ℤ × ℤ × ℤ
  | none, d => (d, 1, d)
  | some m, d =>
    (m.total_watch_minutes + d, m.session_count + 1,
      max m.max_session_duration d)

/-- The spec scenario store: one metric row with
total_watch_minutes = 240, session_count = 6, max_session_duration = 200
and no sessions (hence no late-night session). -/
def db86 : DB := ⟨[], [((1, "2026-01-01"), ⟨240, 6, 200, 0, 0, 100⟩)]⟩

/-- A store holding one active session of user 1 with 30 stored minutes,
used as the concrete input of several witnesses and counterexamples. -/
def dbX : DB :=
  ⟨[("s1", ⟨1, 7, "happy", "afternoon", "2026-01-01", 12, 30, false, false⟩)], []⟩

/-- A store holding one never-updated session (0 stored minutes) next to
an existing metric row (50 total minutes, 2 sessions, max 40). -/
def dbY : DB :=
  ⟨[("s2", ⟨1, 7, "happy", "afternoon", "2026-01-01", 12, 0, false, false⟩)],
    [((1, "2026-01-01"), ⟨50, 2, 40, 0, 0, 100⟩)]⟩

/-! # Theorems -/

/-! ## Association-list lemmas -/

theorem lookupA_modA_self {κ β : Type} [DecidableEq κ]
    (l : List (κ × β)) (k : κ) (f : β → β) :
    lookupA (modA l k f) k = (lookupA l k).map f := by
  induction l with
  | nil => rfl
  | cons p t ih =>
    obtain ⟨pk, pv⟩ := p
    by_cases h : pk = k
    · subst h
      simp [modA, lookupA]
    · simp only [modA, List.map_cons] at ih ⊢
      simp only [if_neg h, lookupA, if_neg h]
      exact ih

theorem lookupA_cons_self {κ β : Type} [DecidableEq κ]
    (t : List (κ × β)) (k : κ) (b : β) :
    lookupA ((k, b) :: t) k = some b := by
  simp [lookupA]

theorem lookupSess_lookupA {l : List (String × WatchSessionRow)}
    {sid : String} {uid : ℤ} {row : WatchSessionRow}
    (h : lookupSess l sid uid = some row) :
    ∃ r0, lookupA l sid = some r0 := by
  induction l with
  | nil => simp [lookupSess] at h
  | cons p t ih =>
    by_cases hp : p.1 = sid ∧ p.2.user_id = uid
    · exact ⟨p.2, by simp [lookupA, hp.1]⟩
    · simp only [lookupSess, if_neg hp] at h
      by_cases h1 : p.1 = sid
      · exact ⟨p.2, by simp [lookupA, h1]⟩
      · obtain ⟨r0, hr0⟩ := ih h
        exact ⟨r0, by simp [lookupA, h1, hr0]⟩

/-! ## End-session fold helper -/

/-- A successful `end_watch_session` call returns the stored duration and
folds it into the (user, today) metric aggregates: a fresh row
(d, 1, d) when none existed, else total + d, count + 1, max(prior, d). -/
theorem end_fold_spec (db : DB) (sid : String) (uid : ℤ) (sat : Bool)
    (today : String) (row : WatchSessionRow)
    (h : lookupSess db.sessions sid uid = some row) :
    metricView
        (lookupA (end_watch_session db sid uid sat today).1.metrics (uid, today)) =
      some (foldTCM (lookupA db.metrics (uid, today)) row.duration_minutes) ∧
    (∃ res, (end_watch_session db sid uid sat today).2 = Except.ok res ∧
      res.duration = row.duration_minutes) ∧
    (lookupA (end_watch_session db sid uid sat today).1.sessions sid).map
      (fun s => s.completed) = some true := by
  obtain ⟨r0, hr0⟩ := lookupSess_lookupA h
  cases hm : lookupA db.metrics (uid, today) with
  | none =>
    refine ⟨?_, ?_, ?_⟩
    · simp only [end_watch_session, h, hm]
      rw [lookupA_modA_self, lookupA_cons_self]
      simp [metricView, foldTCM, hm]
    · simp only [end_watch_session, h, hm]
      exact ⟨_, rfl, rfl⟩
    · simp only [end_watch_session, h, hm]
      rw [lookupA_modA_self, hr0]
      simp
  | some m =>
    refine ⟨?_, ?_, ?_⟩
    · simp only [end_watch_session, h, hm]
      rw [lookupA_modA_self, lookupA_modA_self, hm]
      simp [metricView, foldTCM, hm]
    · simp only [end_watch_session, h, hm]
      exact ⟨_, rfl, rfl⟩
    · simp only [end_watch_session, h, hm]
      rw [lookupA_modA_self, hr0]
      simp

/-! ## Claim C1 -/

/-- C1: for every user and date with a stored DailyMetric row, the risk
score equals round(clamp(0.4·min(100, T/120·100) + 0.3·min(100, C/5·100)
+ 0.2·binge(M) + 0.1·late, 0, 100), 2); in particular T = 240, C = 6,
M = 200 with no late-night session yields risk 86.0 and wellness 14.0. -/
theorem claim_C1_risk_formula :
    (∀ (db : DB) (uid : ℤ) (d : String) (r : MetricRow),
      lookupA db.metrics (uid, d) = some r →
      get_addiction_risk_score db uid d =
        riskClaim r.total_watch_minutes r.session_count r.max_session_duration
          (unhealthy_any db uid d)) ∧
    get_addiction_risk_score db86 1 "2026-01-01" = 86 ∧
    get_wellness_score db86 1 "2026-01-01" = 14 := by
  refine ⟨?_, ?_, ?_⟩
  · intro db uid d r h
    unfold get_addiction_risk_score riskClaim
    rw [h]
    have hb : compute_binge_factor = bingeClaim := rfl
    rw [hb]
    norm_num [DAILY_WATCH_GOAL]
    congr 1
    congr 1
    congr 1
    ring
  · norm_num [get_addiction_risk_score, db86, lookupA, DAILY_WATCH_GOAL,
      unhealthy_any, compute_binge_factor, round2, min_def, max_def]
  · norm_num [get_wellness_score, get_addiction_risk_score, db86, lookupA,
      DAILY_WATCH_GOAL, unhealthy_any, compute_binge_factor, round2, min_def,
      max_def]

/-- Witness for C1: the formula instantiated at the stored scenario row,
with the claim-side formula evaluated to 86. -/
theorem claim_C1_risk_formula_witness :
    get_addiction_risk_score db86 1 "2026-01-01" =
      riskClaim 240 6 200 (unhealthy_any db86 1 "2026-01-01") ∧
    riskClaim 240 6 200 false = 86 :=
  ⟨claim_C1_risk_formula.1 db86 1 "2026-01-01" ⟨240, 6, 200, 0, 0, 100⟩ rfl,
    by norm_num [riskClaim, bingeClaim, round2, min_def, max_def]⟩

/-! ## Claim C3 -/

/-- C3: the throttle decision is a pure step function of today's risk
score: risk < 60 → percent 100, 60 ≤ risk ≤ 75 → percent 50,
risk > 75 → percent 20; boundary cases 59.99 → 100, 60.0 → 50,
75.0 → 50, 75.01 → 20. -/
theorem claim_C3_throttle_step :
    (∀ s : ℚ, s < 60 → throttle_percent s = 100) ∧
    (∀ s : ℚ, 60 ≤ s → s ≤ 75 → throttle_percent s = 50) ∧
    (∀ s : ℚ, 75 < s → throttle_percent s = 20) ∧
    throttle_percent 59.99 = 100 ∧ throttle_percent 60 = 50 ∧
    throttle_percent 75 = 50 ∧ throttle_percent 75.01 = 20 ∧
    ∀ (db : DB) (uid : ℤ) (today : String),
      should_throttle_recommendations db uid today =
        (throttle_percent (get_addiction_risk_score db uid today),
          decide (throttle_percent (get_addiction_risk_score db uid today) < 100)) := by
  refine ⟨?_, ?_, ?_, ?_, ?_, ?_, ?_, fun db uid today => rfl⟩
  · intro s hs
    simp [throttle_percent, hs]
  · intro s h1 h2
    simp [throttle_percent, not_lt.mpr h1, h2]
  · intro s h3
    have h1 : ¬s < 60 := by linarith
    have h2 : ¬s ≤ 75 := not_le.mpr h3
    simp [throttle_percent, h1, h2]
  · norm_num [throttle_percent]
  · norm_num [throttle_percent]
  · norm_num [throttle_percent]
  · norm_num [throttle_percent]

/-- Witness for C3: the three step-function branches at concrete scores. -/
theorem claim_C3_throttle_step_witness :
    throttle_percent 30 = 100 ∧ throttle_percent 70 = 50 ∧
    throttle_percent 80 = 20 :=
  ⟨claim_C3_throttle_step.1 30 (by norm_num),
    claim_C3_throttle_step.2.1 70 (by norm_num) (by norm_num),
    claim_C3_throttle_step.2.2.1 80 (by norm_num)⟩

/-! ## Claim C6 -/

/-- C6: ending an unknown session id, or one owned by another user,
returns the NotFound-shaped error and leaves the whole store (sessions
and all DailyMetric aggregates) unchanged. -/
theorem claim_C6_end_notfound_no_mutation (db : DB) (sid : String) (uid : ℤ)
    (sat : Bool) (today : String)
    (h : lookupSess db.sessions sid uid = none) :
    end_watch_session db sid uid sat today =
      (db, Except.error "session_not_found") := by
  simp only [end_watch_session, h]

/-- Witness for C6: ending the existing session "s1" as the wrong user
(user 2 instead of owner 1) leaves `dbX` unchanged. -/
theorem claim_C6_end_notfound_no_mutation_witness :
    end_watch_session dbX "s1" 2 true "2026-01-01" =
      (dbX, Except.error "session_not_found") :=
  claim_C6_end_notfound_no_mutation dbX "s1" 2 true "2026-01-01" rfl

/-! ## Claim C7 -/

/-- C7: after lowercase-normalizing both inputs, `get_affinity_score`
returns exactly the seeded value for every pair present in the seed
table, and 0.5 for every absent pair (unknown mood, or genre missing for
a known mood); e.g. happy→comedy 0.95, happy→horror 0.15, sad→drama
0.95, neutral→action 0.85. -/
theorem claim_C7_affinity_lookup :
    (∀ (mood genre : String) (gs : List (String × ℚ)) (s : ℚ),
      lookupA DEFAULT_MATRIX (strLower mood) = some gs →
      lookupA gs (strLower genre) = some s →
      get_affinity_score DEFAULT_MATRIX mood genre = s) ∧
    (∀ mood genre : String, lookupA DEFAULT_MATRIX (strLower mood) = none →
      get_affinity_score DEFAULT_MATRIX mood genre = 0.5) ∧
    (∀ (mood genre : String) (gs : List (String × ℚ)),
      lookupA DEFAULT_MATRIX (strLower mood) = some gs →
      lookupA gs (strLower genre) = none →
      get_affinity_score DEFAULT_MATRIX mood genre = 0.5) ∧
    get_affinity_score DEFAULT_MATRIX "happy" "comedy" = 0.95 ∧
    get_affinity_score DEFAULT_MATRIX "HAPPY" "Horror" = 0.15 ∧
    get_affinity_score DEFAULT_MATRIX "sad" "drama" = 0.95 ∧
    get_affinity_score DEFAULT_MATRIX "neutral" "action" = 0.85 ∧
    get_affinity_score DEFAULT_MATRIX "angry" "comedy" = 0.5 ∧
    get_affinity_score DEFAULT_MATRIX "happy" "western" = 0.5 := by
  refine ⟨?_, ?_, ?_, rfl, rfl, rfl, rfl, rfl, rfl⟩
  · intro mood genre gs s h1 h2
    unfold get_affinity_score
    rw [h1]
    simp [h2]
  · intro mood genre h1
    unfold get_affinity_score
    rw [h1]
  · intro mood genre gs h1 h2
    unfold get_affinity_score
    rw [h1]
    simp [h2]

/-- Witness for C7: the seeded-pair branch applied at mixed-case inputs. -/
theorem claim_C7_affinity_lookup_witness :
    get_affinity_score DEFAULT_MATRIX "Sad" "Drama" = 0.95 :=
  claim_C7_affinity_lookup.1 "Sad" "Drama" _ 0.95 rfl rfl

/-! ## Claim C2 -/

/-- C2 (amended): each `end_watch_session` call on an existing session
owned by the given user folds the session's stored final duration into
the (user, today) DailyMetric exactly once per call — total + d,
count + 1, max(prior, d) — regardless of how many progress updates
preceded it, returns that duration, and marks the session completed.
(The code does not guard against re-ending, see the counterexample.) -/
theorem claim_C2_end_folds_once_per_call (db : DB) (sid : String) (uid : ℤ)
    (sat : Bool) (today : String) (row : WatchSessionRow)
    (h : lookupSess db.sessions sid uid = some row) :
    metricView
        (lookupA (end_watch_session db sid uid sat today).1.metrics (uid, today)) =
      some (foldTCM (lookupA db.metrics (uid, today)) row.duration_minutes) ∧
    (∃ res, (end_watch_session db sid uid sat today).2 = Except.ok res ∧
      res.duration = row.duration_minutes) ∧
    (lookupA (end_watch_session db sid uid sat today).1.sessions sid).map
      (fun s => s.completed) = some true :=
  end_fold_spec db sid uid sat today row h

/-- Witness for C2: ending the 30-minute session of `dbX` creates the
day's metric row (30, 1, 30). -/
theorem claim_C2_end_folds_once_per_call_witness :
    metricView
        (lookupA (end_watch_session dbX "s1" 1 true "2026-01-01").1.metrics
          (1, "2026-01-01")) = some (30, 1, 30) :=
  (claim_C2_end_folds_once_per_call dbX "s1" 1 true "2026-01-01" _ rfl).1

/-- Counterexample for C2 as stated: the code never checks `completed`,
so a second `end_watch_session` on the already-ended session "s1" matches
the row again and folds its 30 minutes a second time — session_count
becomes 2 and total 60 for the single session, not 1 and 30. -/
theorem claim_C2_double_end_counterexample :
    metricView
        (lookupA (end_watch_session dbX "s1" 1 true "2026-01-01").1.metrics
          (1, "2026-01-01")) = some (30, 1, 30) ∧
    (lookupA (end_watch_session dbX "s1" 1 true "2026-01-01").1.sessions
        "s1").map (fun s => s.completed) = some true ∧
    metricView
        (lookupA
          (end_watch_session (end_watch_session dbX "s1" 1 true "2026-01-01").1
            "s1" 1 true "2026-01-01").1.metrics
          (1, "2026-01-01")) = some (60, 2, 30) :=
  ⟨rfl, rfl, rfl⟩

/-! ## Claim C10 -/

/-- C10: ending a session that never received a progress update (stored
duration 0) leaves the day's total_watch_minutes and max_session_duration
unchanged while session_count increments by 1 (a missing metric row
becomes (0, 1, 0)), and the frequency factor of the risk score is
non-decreasing in the session count. -/
theorem claim_C10_zero_duration_end (db : DB) (sid : String) (uid : ℤ)
    (sat : Bool) (today : String) (row : WatchSessionRow)
    (h : lookupSess db.sessions sid uid = some row)
    (hd : row.duration_minutes = 0) :
    (∀ m0 : MetricRow, lookupA db.metrics (uid, today) = some m0 →
      0 ≤ m0.max_session_duration →
      metricView
          (lookupA (end_watch_session db sid uid sat today).1.metrics
            (uid, today)) =
        some (m0.total_watch_minutes, m0.session_count + 1,
          m0.max_session_duration) ∧
      min 100 ((m0.session_count : ℚ) / 5 * 100) ≤
        min 100 (((m0.session_count + 1 : ℤ) : ℚ) / 5 * 100)) ∧
    (lookupA db.metrics (uid, today) = none →
      metricView
          (lookupA (end_watch_session db sid uid sat today).1.metrics
            (uid, today)) = some (0, 1, 0)) := by
  constructor
  · intro m0 hm0 hmax
    have hf := (end_fold_spec db sid uid sat today row h).1
    rw [hm0] at hf
    constructor
    · rw [hf]
      simp [foldTCM, hd, max_eq_left hmax]
    · refine min_le_min le_rfl ?_
      push_cast
      linarith
  · intro hm0
    have hf := (end_fold_spec db sid uid sat today row h).1
    rw [hm0] at hf
    rw [hf]
    simp [foldTCM, hd]

/-- Witness for C10: ending the zero-minute session of `dbY` turns the
metric row (50, 2, 40) into (50, 3, 40). -/
theorem claim_C10_zero_duration_end_witness :
    metricView
        (lookupA (end_watch_session dbY "s2" 1 true "2026-01-01").1.metrics
          (1, "2026-01-01")) = some (50, 3, 40) :=
  ((claim_C10_zero_duration_end dbY "s2" 1 true "2026-01-01" _ rfl rfl).1
    ⟨50, 2, 40, 0, 0, 100⟩ rfl (by norm_num)).1

/-! ## Claim C8 -/

/-- C8 (amended): `update_watch_progress` overwrites the stored duration
with the reported value; hence the duration stays ≥ 0 and never
decreases provided each reported value is ≥ 0 and ≥ the currently stored
duration (cumulative reports) — but the code itself enforces no clamp,
see the counterexample. -/
theorem claim_C8_duration_overwrite (db : DB) (sid : String) (d : ℤ)
    (today : String) (row : WatchSessionRow)
    (h : lookupA db.sessions sid = some row) :
    lookupA (update_watch_progress db sid d today).1.sessions sid =
      some { row with duration_minutes := d } ∧
    (0 ≤ d →
      0 ≤ ({ row with duration_minutes := d } : WatchSessionRow).duration_minutes) ∧
    (row.duration_minutes ≤ d →
      row.duration_minutes ≤
        ({ row with duration_minutes := d } : WatchSessionRow).duration_minutes) := by
  refine ⟨?_, fun hd => hd, fun hd => hd⟩
  simp only [update_watch_progress, h]
  rw [lookupA_modA_self, h]
  rfl

/-- Witness for C8: reporting 45 minutes for the 30-minute session of
`dbX` stores exactly 45. -/
theorem claim_C8_duration_overwrite_witness :
    lookupA (update_watch_progress dbX "s1" 45 "2026-01-01").1.sessions "s1" =
      some ⟨1, 7, "happy", "afternoon", "2026-01-01", 12, 45, false, false⟩ ∧
    (0 : ℤ) ≤ 45 ∧ (30 : ℤ) ≤ 45 :=
  ⟨(claim_C8_duration_overwrite dbX "s1" 45 "2026-01-01" _ rfl).1,
    (claim_C8_duration_overwrite dbX "s1" 45 "2026-01-01" _ rfl).2.1 (by decide),
    (claim_C8_duration_overwrite dbX "s1" 45 "2026-01-01" _ rfl).2.2 (by decide)⟩

/-- Counterexample for C8 as stated: reporting 30 and then 10 leaves the
stored duration at 10 < 30 (a decrease), and reporting −5 stores the
negative value −5. -/
theorem claim_C8_decrease_counterexample :
    (lookupA (update_watch_progress
        (update_watch_progress dbX "s1" 30 "2026-01-01").1
        "s1" 10 "2026-01-01").1.sessions "s1").map
      (fun s => s.duration_minutes) = some 10 ∧
    (lookupA (update_watch_progress dbX "s1" (-5) "2026-01-01").1.sessions
        "s1").map (fun s => s.duration_minutes) = some (-5) ∧
    (10 : ℤ) < 30 ∧ (-5 : ℤ) < 0 :=
  ⟨rfl, rfl, by decide, by decide⟩

/-! ## Claim C9 -/

/-- A successful `start_watch_session` call returns an id that was not
yet a key of the session table and persists under it a fresh Active row
with duration 0. -/
theorem start_ok_spec {db : DB} {uid cid : ℤ} {mood period : String}
    {ts : ℕ} {date : String} {hour : ℕ} {db2 : DB} {sid : String}
    (h : start_watch_session db uid cid mood period ts date hour =
      (db2, Except.ok sid)) :
    lookupA db.sessions sid = none ∧
    lookupA db2.sessions sid =
      some ⟨uid, cid, mood, period, date, hour, 0, false, false⟩ := by
  cases hl : lookupA db.sessions (mkSessionId uid cid ts) with
  | some r =>
    simp only [start_watch_session, hl] at h
    simp at h
  | none =>
    simp only [start_watch_session, hl] at h
    simp only [Prod.mk.injEq, Except.ok.injEq] at h
    obtain ⟨hdb, hsid⟩ := h
    subst hsid
    subst hdb
    exact ⟨hl, lookupA_cons_self _ _ _⟩

/-- C9 (amended): a `start_watch_session` call whose
(user, content, second-timestamp) id is not yet present persists a fresh
Active row with duration 0 and returns that id; every successfully
returned id was absent before and present after its call, so the ids of
two consecutive successful calls always differ. (A same-second call with
equal user and content collides instead of persisting, see the
counterexample.) -/
theorem claim_C9_start_session_spec :
    (∀ (db : DB) (uid cid : ℤ) (mood period : String) (ts : ℕ)
        (date : String) (hour : ℕ),
      lookupA db.sessions (mkSessionId uid cid ts) = none →
      start_watch_session db uid cid mood period ts date hour =
        ({ db with
            sessions := (mkSessionId uid cid ts,
              ⟨uid, cid, mood, period, date, hour, 0, false, false⟩)
              :: db.sessions },
          Except.ok (mkSessionId uid cid ts))) ∧
    (∀ (db : DB) (uid cid : ℤ) (mood period : String) (ts : ℕ)
        (date : String) (hour : ℕ) (db2 : DB) (sid : String),
      start_watch_session db uid cid mood period ts date hour =
        (db2, Except.ok sid) →
      lookupA db.sessions sid = none ∧
      lookupA db2.sessions sid =
        some ⟨uid, cid, mood, period, date, hour, 0, false, false⟩) ∧
    (∀ (db db2 db3 : DB) (u1 c1 : ℤ) (m1 p1 : String) (t1 : ℕ) (d1 : String)
        (k1 : ℕ) (u2 c2 : ℤ) (m2 p2 : String) (t2 : ℕ) (d2 : String) (k2 : ℕ)
        (sid1 sid2 : String),
      start_watch_session db u1 c1 m1 p1 t1 d1 k1 = (db2, Except.ok sid1) →
      start_watch_session db2 u2 c2 m2 p2 t2 d2 k2 = (db3, Except.ok sid2) →
      sid1 ≠ sid2) := by
  refine ⟨?_, ?_, ?_⟩
  · intro db uid cid mood period ts date hour h
    simp only [start_watch_session, h]
  · intro db uid cid mood period ts date hour db2 sid h
    exact start_ok_spec h
  · intro db db2 db3 u1 c1 m1 p1 t1 d1 k1 u2 c2 m2 p2 t2 d2 k2 sid1 sid2 ha hb
    intro heq
    have h1 := (start_ok_spec ha).2
    have h2 := (start_ok_spec hb).1
    rw [heq] at h1
    rw [h1] at h2
    exact Option.noConfusion h2

/-- Witness for C9: starting a session for (user 1, content 2, second
1000) on `dbX` persists the fresh row under "sess_1_2_1000". -/
theorem claim_C9_start_session_spec_witness :
    start_watch_session dbX 1 2 "happy" "morning" 1000 "2026-01-01" 10 =
      ({ dbX with
          sessions := ("sess_1_2_1000",
            ⟨1, 2, "happy", "morning", "2026-01-01", 10, 0, false, false⟩)
            :: dbX.sessions },
        Except.ok "sess_1_2_1000") :=
  claim_C9_start_session_spec.1 dbX 1 2 "happy" "morning" 1000 "2026-01-01" 10 rfl

/-- Counterexample for C9 as stated: two distinct calls with the same
user, content and whole-second timestamp build the same id; the second
call hits the PRIMARY KEY, returns an error instead of an id, and
persists no new Active row (the state is unchanged). -/
theorem claim_C9_same_second_counterexample :
    (start_watch_session dbX 1 2 "happy" "morning" 1000 "2026-01-01" 10).2 =
      Except.ok "sess_1_2_1000" ∧
    (start_watch_session
        (start_watch_session dbX 1 2 "happy" "morning" 1000 "2026-01-01" 10).1
        1 2 "happy" "morning" 1000 "2026-01-01" 10).2 =
      Except.error "UNIQUE constraint failed: watch_sessions.session_id" ∧
    (start_watch_session
        (start_watch_session dbX 1 2 "happy" "morning" 1000 "2026-01-01" 10).1
        1 2 "happy" "morning" 1000 "2026-01-01" 10).1 =
      (start_watch_session dbX 1 2 "happy" "morning" 1000 "2026-01-01" 10).1 :=
  ⟨rfl, rfl, rfl⟩

/-! ## Ensemble ranker lemmas -/

theorem get_recommendations_length (st : Bool) (tp : ℚ)
    (msF : ItemMeta → String → ℚ) (tsF : String → ℚ) (maxd : ℤ)
    (mood : String) (metaOf : ℕ → ItemMeta) (cands : List (ℕ × ℚ)) (n : ℕ) :
    (get_recommendations st tp msF tsF maxd mood metaOf cands n).length =
      min (effective_n n st tp) cands.length := by
  simp [get_recommendations, sortDesc, List.length_take,
    List.length_insertionSort, List.length_map]

theorem get_recommendations_sorted (st : Bool) (tp : ℚ)
    (msF : ItemMeta → String → ℚ) (tsF : String → ℚ) (maxd : ℤ)
    (mood : String) (metaOf : ℕ → ItemMeta) (cands : List (ℕ × ℚ)) (n : ℕ) :
    List.Sorted scoreGE (get_recommendations st tp msF tsF maxd mood metaOf cands n) := by
  unfold get_recommendations sortDesc
  exact List.Pairwise.sublist (List.take_sublist _ _)
    (List.sorted_insertionSort scoreGE _)

/-! ## Claim C4 -/

/-- C4 (amended): every candidate's final score is
0.4·(pred/5) + 0.3·cb + 0.2·moodAffinity + 0.1·timeScore with the
content term identically cb = 1 (the constant 0.3 baseline of the code,
not a 0.5 default), cf = predicted rating / 5 (never defaulted), and the
time score halved when the item's duration is not optimal for the
current period. -/
theorem claim_C4_ensemble_weights (msF : ItemMeta → String → ℚ)
    (tsF : String → ℚ) (maxd : ℤ) (mood : String) (pred : ℚ)
    (meta : ItemMeta) :
    ensemble_item_score msF tsF maxd mood pred meta =
      final_score_claim (pred / 5) 1 (msF meta mood)
        (if meta.duration ≤ maxd then
          (match meta.genres with | [] => (0.5 : ℚ) | g :: _ => tsF g)
        else
          (match meta.genres with | [] => (0.5 : ℚ) | g :: _ => tsF g) * 0.5) := by
  simp only [ensemble_item_score, final_score_claim, weights_collaborative,
    weights_mood, weights_time]
  ring

/-- Counterexample for C4 as stated: a candidate with predicted rating 4
(cf = 0.8), mood affinity 0.5 and time score 0.5, and no content
sub-score, scores 0.77 under the code, while the claim's formula with
the defaulted cb = 0.5 gives 0.62. -/
theorem claim_C4_weights_counterexample :
    ensemble_item_score (fun _ _ => 0.5) (fun _ => 0.5) 180 "happy" 4
        ⟨"t", ["drama"], 90⟩ = 0.77 ∧
    final_score_claim (4 / 5) 0.5 0.5 0.5 = 0.62 ∧
    (0.77 : ℚ) ≠ 0.62 := by
  refine ⟨?_, ?_, ?_⟩
  · norm_num [ensemble_item_score, weights_collaborative, weights_mood,
      weights_time]
  · norm_num [final_score_claim]
  · norm_num

/-! ## Claim C5 -/

/-- C5 (amended): `get_recommendations` returns the top
min(effectiveCount, number of candidates) items sorted by non-increasing
final score, where effectiveCount is `max(1, int(n·(1 − tp)))` — Python
`int` truncation, not rounding — when the throttle flag is set, and n
unchanged otherwise; requestedCount 5 at throttle fraction 0.5 yields 2
items, not round(2.5) = 3. -/
theorem claim_C5_throttled_truncation :
    (∀ (st : Bool) (tp : ℚ) (msF : ItemMeta → String → ℚ) (tsF : String → ℚ)
        (maxd : ℤ) (mood : String) (metaOf : ℕ → ItemMeta)
        (cands : List (ℕ × ℚ)) (n : ℕ),
      (get_recommendations st tp msF tsF maxd mood metaOf cands n).length =
        min (effective_n n st tp) cands.length ∧
      List.Sorted scoreGE (get_recommendations st tp msF tsF maxd mood metaOf cands n)) ∧
    (∀ (n : ℕ) (tp : ℚ), effective_n n false tp = n) ∧
    effective_n 5 true (1/2) = 2 := by
  refine ⟨?_, fun n tp => rfl, ?_⟩
  · intro st tp msF tsF maxd mood metaOf cands n
    exact ⟨get_recommendations_length st tp msF tsF maxd mood metaOf cands n,
      get_recommendations_sorted st tp msF tsF maxd mood metaOf cands n⟩
  · norm_num [effective_n, pyInt]
    rfl

/-- Counterexample for C5 as stated: at requestedCount 5 and throttle
percent 50 the claim demands max(1, round(5·50/100)) = 3 items, but the
code truncates with `int` and returns 2 — shown both on the effective
count and on a full 5-candidate ranking run. -/
theorem claim_C5_truncation_counterexample :
    effective_n 5 true (1/2) = 2 ∧
    (max 1 (round ((5 : ℚ) * 50 / 100)) : ℤ) = 3 ∧
    (get_recommendations true (1/2) (fun _ _ => 0.5) (fun _ => 0.5) 180
        "happy" (fun _ => ⟨"t", ["drama"], 90⟩)
        [(1, 4), (2, 5), (3, 3), (4, 2), (5, 1)] 5).length = 2 := by
  refine ⟨?_, ?_, ?_⟩
  · norm_num [effective_n, pyInt]
    rfl
  · norm_num [round_eq]
  · rw [get_recommendations_length]
    norm_num [effective_n, pyInt]
    rfl

end ContentRec
